import Mathlib

/-!
Verification of the client-side session and authentication layer of a
banking web application (static/js/auth.js).  The JavaScript handlers are
shallowly embedded as Lean functions: DOM and network side effects become
explicit event traces, browser storage / cookies / button state become an
explicit state record folded over those traces, and the two request-header
interceptors (the wrapped window.fetch and the htmx configRequest hook)
become pure functions on header maps.
-/

namespace Bank

/-- The persisted client session: the two localStorage entries
`access_token` and `token_type`.  `none` models an absent key
(`localStorage.getItem` returning null). -/
structure Session where
  access_token : Option String
  token_type : Option String
deriving Repr, DecidableEq

/-- JavaScript truthiness of a `localStorage.getItem` / property-read
result: null (absent) and the empty string are falsy, every other string
is truthy. -/
def jsTruthy : Option String → Bool
  | none => false
  | some s => s != ""

/-- JavaScript `a || b` for a string value that may be absent: the
fallback is used when the value is absent or empty (falsy). -/
def jsOr (a : Option String) (b : String) : String :=
  match a with
  | none => b
  | some s => if s = "" then b else s

/-- A JavaScript object used as a header map: an association list of
header-name / value pairs. -/
abbrev HeaderMap := List (String × String)

/-- Property read `h[k]`; `none` models undefined. -/
def HeaderMap.get : HeaderMap → String → Option String
  | [], _ => none
  | p :: t, k => if p.1 = k then some p.2 else HeaderMap.get t k

/-- Property write `h[k] = v`: overwrites the value of an existing key,
otherwise appends the new pair. -/
def HeaderMap.set : HeaderMap → String → String → HeaderMap
  | [], k, v => [(k, v)]
  | p :: t, k, v => if p.1 = k then (k, v) :: t else p :: HeaderMap.set t k v

/-- The `Authorization` value built by auth.js from a session:
the template string `<tokenType> <token>`. -/
def authValue (store : Session) : String :=
  (store.token_type.getD "") ++ " " ++ (store.access_token.getD "")

/-- Is `pat` a prefix of `l` (by character equality)? -/
def listPrefix : List Char → List Char → Bool
  | [], _ => true
  | _ :: _, [] => false
  | a :: as, b :: bs => a == b && listPrefix as bs

/-- The String.startsWith test of the two interceptors, modelled as a
structural prefix check on the character lists. -/
def strStartsWith (s pre : String) : Bool := listPrefix pre.data s.data

/-- The window.fetch wrapper of auth.js (lines 154-170): for URLs starting
with `/api/`, when both stored values are truthy and the caller-supplied
`Authorization` entry is falsy, it sets `Authorization` to
`<tokenType> <token>`; in every other case the header map is unchanged. -/
def fetchWrapperHeaders (store : Session) (url : String) (headers : HeaderMap) : HeaderMap :=
  if strStartsWith url "/api/" then
    if jsTruthy store.access_token && jsTruthy store.token_type then
      if jsTruthy (headers.get "Authorization") then headers
      else headers.set "Authorization" (authValue store)
    else headers
  else headers

/-- The htmx configRequest listener of auth.js (lines 173-183): the same
`/api/` prefix check and session-truthiness check as the fetch wrapper,
but it writes the `Authorization` entry unconditionally — there is no
check for a caller-supplied value. -/
def htmxConfigHeaders (store : Session) (path : String) (headers : HeaderMap) : HeaderMap :=
  if strStartsWith path "/api/" then
    if jsTruthy store.access_token && jsTruthy store.token_type then
      headers.set "Authorization" (authValue store)
    else headers
  else headers

/-- The header map captured once at DOMContentLoaded by the second script
(auth.js lines 186-195): Content-Type plus, when a session is present at
load time, an `Authorization` entry built from the load-time session. -/
def capturedHeaders (loadStore : Session) : HeaderMap :=
  let base : HeaderMap := [("Content-Type", "application/json")]
  if jsTruthy loadStore.access_token && jsTruthy loadStore.token_type then
    base.set "Authorization" (authValue loadStore)
  else base

/-- The headers actually sent by the transfer / deposit / admin fetches:
the captured load-time map, passed through the wrapped fetch together with
the session current at the moment the request is issued. -/
def transferRequestHeaders (loadStore currentStore : Session) : HeaderMap :=
  fetchWrapperHeaders currentStore "/api/transfer" (capturedHeaders loadStore)

/-- One observable side effect performed by a handler, in program order:
network calls, storage / cookie writes, navigation, DOM mutations and
timer registrations. -/
inductive Event where
  | fetchStart (url : String)
  | storageSet (key value : String)
  | storageRemove (key : String)
  | setCookie (value : String)
  | navigate (url : String)
  | clearMessage (elemId : String)
  | showMessage (elemId msg : String)
  | notify (msg kind : String)
  | setDisabled (b : Bool)
  | setLabel (text : String)
  | renderHTML (elemId html : String)
  | formReset
  | scheduleReload (ms : Nat)
  | scheduleNavigate (ms : Nat) (url : String)
  | consoleError (tag : String)
deriving Repr, DecidableEq

/-- The DOM state of an action button: its disabled flag and its visible
label text (textContent). -/
structure ButtonState where
  disabled : Bool
  label : String
deriving Repr, DecidableEq

/-- The browser-visible state a handler can affect: localStorage, the
last cookie write, the location, the inline message region, the
notification container, the state of the one button the handler touches,
the last innerHTML render, whether the form was reset, and any pending
reload / delayed-navigation timers. -/
structure ClientState where
  access_token : Option String := none
  token_type : Option String := none
  cookie : Option String := none
  location : Option String := none
  message : Option (String × String) := none
  notices : List (String × String) := []
  btnDisabled : Bool := false
  btnLabel : String := ""
  rendered : Option (String × String) := none
  formWasReset : Bool := false
  reloadScheduled : Option Nat := none
  navScheduled : Option (Nat × String) := none
deriving Repr, DecidableEq

/-- The button the handler manipulates, as read back from the state. -/
def ClientState.button (s : ClientState) : ButtonState := ⟨s.btnDisabled, s.btnLabel⟩

/-- Interpretation of one event on the client state. -/
def step (s : ClientState) : Event → ClientState
  | .fetchStart _ => s
  | .storageSet k v =>
    if k = "access_token" then { s with access_token := some v }
    else if k = "token_type" then { s with token_type := some v }
    else s
  | .storageRemove k =>
    if k = "access_token" then { s with access_token := none }
    else if k = "token_type" then { s with token_type := none }
    else s
  | .setCookie v => { s with cookie := some v }
  | .navigate u => { s with location := some u }
  | .clearMessage _ => { s with message := none }
  | .showMessage e m => { s with message := some (e, m) }
  | .notify m k => { s with notices := s.notices ++ [(m, k)] }
  | .setDisabled b => { s with btnDisabled := b }
  | .setLabel t => { s with btnLabel := t }
  | .renderHTML e h => { s with rendered := some (e, h) }
  | .formReset => { s with formWasReset := true }
  | .scheduleReload ms => { s with reloadScheduled := some ms }
  | .scheduleNavigate ms u => { s with navScheduled := some (ms, u) }
  | .consoleError _ => s

/-- Run a trace of events from a starting state. -/
def run (s : ClientState) (es : List Event) : ClientState := es.foldl step s

/-- JSON body of a successful-or-failed login response as read by the
handler: `access_token` and `token_type` on the ok branch, `detail` on the
error branch. -/
structure LoginBody where
  access_token : String
  token_type : String
  detail : Option String := none
deriving Repr, DecidableEq

/-- Outcome of the awaited `fetch` + `response.json()` pair: a parsed
response with its `response.ok` flag, or a rejection (network failure or
JSON parse failure), which lands in the catch block. -/
inductive LoginOutcome where
  | response (ok : Bool) (body : LoginBody)
  | transportError
deriving Repr, DecidableEq

/-- The cookie string written on login success (auth.js line 39): the
`Bearer` prefix is hard-coded in the template literal. -/
def loginCookie (token : String) (rememberMe : Bool) : String :=
  "access_token=Bearer " ++ token ++ "; path=/; max-age=" ++
    toString (if rememberMe then (604800 : Nat) else 86400) ++ "; SameSite=Lax"

/-- The login submit handler (auth.js lines 5-57). -/
def loginHandler (_username _password : String) (rememberMe : Bool)
    (out : LoginOutcome) : List Event :=
  Event.clearMessage "login-error" ::
  Event.fetchStart "/auth/login" ::
  match out with
  | .response true body =>
    [Event.storageSet "access_token" body.access_token,
     Event.storageSet "token_type" body.token_type,
     Event.setCookie (loginCookie body.access_token rememberMe),
     Event.navigate "/dashboard"]
  | .response false body =>
    [Event.showMessage "login-error" (jsOr body.detail "Login failed")]
  | .transportError =>
    [Event.consoleError "Login error",
     Event.showMessage "login-error" "An error occurred during login"]

/-- Outcome of the registration request. -/
inductive RegisterOutcome where
  | response (ok : Bool) (detail : Option String)
  | transportError
deriving Repr, DecidableEq

/-- The registration submit handler (auth.js lines 63-125): clears the
error region, validates that the two password fields match before any
network call, and otherwise submits and interprets the response. -/
def registerHandler (_username password passwordConfirm : String)
    (out : RegisterOutcome) : List Event :=
  Event.clearMessage "register-error" ::
  (if password ≠ passwordConfirm then
    [Event.showMessage "register-error" "Passwords do not match"]
  else
    Event.fetchStart "/auth/register" ::
    match out with
    | .response true _ =>
      [Event.showMessage "register-success"
         "Registration successful! Redirecting to login...",
       Event.scheduleNavigate 2000 "/login"]
    | .response false detail =>
      [Event.showMessage "register-error" (jsOr detail "Registration failed")]
    | .transportError =>
      [Event.consoleError "Registration error",
       Event.showMessage "register-error" "An error occurred during registration"])

/-- Outcome of the awaited logout fetch: the promise resolves (with any
status, the response is never inspected) or rejects (transport failure). -/
inductive LogoutOutcome where
  | resolved (ok : Bool)
  | rejected
deriving Repr, DecidableEq

/-- The expired-cookie write of the logout handler (auth.js line 143). -/
def expiredCookie : String :=
  "access_token=; path=/; expires=Thu, 01 Jan 1970 00:00:00 GMT"

/-- The logout click handler (auth.js lines 131-150).  The storage
removals, the cookie expiry and the navigation sit inside the try block
after the awaited fetch, so they run only when the fetch promise
resolves; a rejection jumps to the catch block, which only logs. -/
def logoutHandler (out : LogoutOutcome) : List Event :=
  Event.fetchStart "/auth/logout" ::
  match out with
  | .resolved _ =>
    [Event.storageRemove "access_token",
     Event.storageRemove "token_type",
     Event.setCookie expiredCookie,
     Event.navigate "/login"]
  | .rejected =>
    [Event.consoleError "Logout error"]

/-- Insert `,` thousands separators into a reversed digit list. -/
def groupRev : List Char → List Char
  | c1 :: c2 :: c3 :: c4 :: rest => c1 :: c2 :: c3 :: ',' :: groupRev (c4 :: rest)
  | l => l

/-- Insert `,` thousands separators into a digit string. -/
def groupThousands (s : String) : String :=
  String.mk (groupRev s.data.reverse).reverse

/-- window.formatCurrency (auth.js lines 198-203) delegates to the
platform formatter Intl.NumberFormat with locale en-US and currency USD;
modelled here for nonnegative amounts given in integer cents: a dollar
sign, the dollar part with thousands separators, and two fraction
digits. -/
def formatCurrency (cents : Nat) : String :=
  let frac := cents % 100
  "$" ++ groupThousands (toString (cents / 100)) ++ "." ++
    (if frac < 10 then "0" ++ toString frac else toString frac)

/-- JSON body of the deposit response as read by the handler:
`cheque_number` on the ok branch, `detail` on the error branch. -/
structure DepositBody where
  cheque_number : String
  detail : Option String := none
deriving Repr, DecidableEq

/-- Outcome of the deposit request. -/
inductive DepositOutcome where
  | response (ok : Bool) (body : DepositBody)
  | transportError
deriving Repr, DecidableEq

/-- The innerHTML written to the `deposit-result` container on deposit
success (auth.js lines 341-351), template-literal whitespace included. -/
def depositResultHTML (chequeNumber : String) (amountCents : Nat) : String :=
  "\n            <div class=\"mt-4 p-4 border border-green-200 rounded-lg bg-green-50\">\n              <p class=\"text-green-700 mb-2\">Deposit request created successfully!</p>\n              <p class=\"text-gray-700 mb-2\">Cheque Number: <strong>" ++
    chequeNumber ++
    "</strong></p>\n              <p class=\"text-gray-700 mb-2\">Amount: <strong>" ++
    formatCurrency amountCents ++
    "</strong></p>\n              <p class=\"text-gray-700 mb-4\">Your deposit is pending approval by an administrator.</p>\n              <a href=\"/api/deposit/" ++
    chequeNumber ++
    "/pdf\" target=\"_blank\" class=\"btn btn-primary\">\n                Download Cheque PDF\n              </a>\n            </div>\n          "

/-- The deposit submit handler (auth.js lines 312-378): disables the
submit control and sets the processing label synchronously before the
fetch; on success it renders the result panel, resets the form and
schedules a reload; on a failure response or a transport error it
re-enables the control and restores the `Request Deposit` label. -/
def depositHandler (amountCents : Nat) (out : DepositOutcome) : List Event :=
  Event.setDisabled true ::
  Event.setLabel "Processing..." ::
  Event.fetchStart "/api/deposit" ::
  match out with
  | .response true body =>
    [Event.notify "Deposit request created successfully!" "success",
     Event.renderHTML "deposit-result" (depositResultHTML body.cheque_number amountCents),
     Event.formReset,
     Event.scheduleReload 3000]
  | .response false body =>
    [Event.notify (jsOr body.detail "Deposit request failed") "error",
     Event.setDisabled false,
     Event.setLabel "Request Deposit"]
  | .transportError =>
    [Event.consoleError "Deposit error",
     Event.notify "An error occurred during deposit request" "error",
     Event.setDisabled false,
     Event.setLabel "Request Deposit"]

/-- Modelled from the spec: the deposit page markup is not under src/, so
the submit control's initial DOM state is taken from the spec's wording
that a failure restores "the submit control to its original enabled state
and label" — enabled, bearing the label the handler writes back. -/
def initialDepositState : ClientState :=
  { btnDisabled := false, btnLabel := "Request Deposit" }

/-- The textContent.trim() call of the admin handlers: strip leading and
trailing whitespace, modelled structurally on the character list. -/
def jsTrim (s : String) : String :=
  String.mk (((s.data.dropWhile Char.isWhitespace).reverse.dropWhile Char.isWhitespace).reverse)

/-- Outcome of an admin status-change request. -/
inductive AdminOutcome where
  | response (ok : Bool) (detail : Option String)
  | transportError
deriving Repr, DecidableEq

/-- The admin deposit approve / reject click handler (auth.js lines
383-426): an early return while the button is disabled, otherwise a
disable + processing label, the status request, and on failure a restore
of the trimmed original label. -/
def depositActionHandler (btn : ButtonState) (depositId action : String)
    (out : AdminOutcome) : List Event :=
  if btn.disabled then []
  else
    Event.setDisabled true ::
    Event.setLabel "Processing..." ::
    Event.fetchStart ("/api/admin/deposit/" ++ depositId ++ "/status") ::
    match out with
    | .response true _ =>
      [Event.notify ("Deposit " ++ action ++ " successfully!") "success",
       Event.scheduleReload 2000]
    | .response false detail =>
      [Event.notify (jsOr detail ("Failed to " ++ action ++ " deposit")) "error",
       Event.setDisabled false,
       Event.setLabel (jsTrim btn.label)]
    | .transportError =>
      [Event.consoleError "Deposit action error",
       Event.notify ("An error occurred while " ++ action ++ "ing deposit") "error",
       Event.setDisabled false,
       Event.setLabel (jsTrim btn.label)]

/-- The admin withdrawal approve / reject click handler (auth.js lines
430-472), identical to the deposit one up to the URL and the wording of
the notifications. -/
def withdrawalActionHandler (btn : ButtonState) (withdrawalId action : String)
    (out : AdminOutcome) : List Event :=
  if btn.disabled then []
  else
    Event.setDisabled true ::
    Event.setLabel "Processing..." ::
    Event.fetchStart ("/api/admin/withdraw/" ++ withdrawalId ++ "/status") ::
    match out with
    | .response true _ =>
      [Event.notify ("Withdrawal " ++ action ++ " successfully!") "success",
       Event.scheduleReload 2000]
    | .response false detail =>
      [Event.notify (jsOr detail ("Failed to " ++ action ++ " withdrawal")) "error",
       Event.setDisabled false,
       Event.setLabel (jsTrim btn.label)]
    | .transportError =>
      [Event.consoleError "Withdrawal action error",
       Event.notify ("An error occurred while " ++ action ++ "ing withdrawal") "error",
       Event.setDisabled false,
       Event.setLabel (jsTrim btn.label)]

/-- Does `pat` occur as a contiguous infix of the list? -/
def listInfix (pat : List Char) : List Char → Bool
  | [] => listPrefix pat []
  | c :: t => listPrefix pat (c :: t) || listInfix pat t

/-- Does `pat` occur as a contiguous substring of `s`? -/
def strContains (s pat : String) : Bool := listInfix pat.data s.data

/-- Drop everything between `<` and `>`, keeping the rendered text. -/
def stripTagsAux : List Char → Bool → List Char
  | [], _ => []
  | c :: cs, inTag =>
    if c == '<' then stripTagsAux cs true
    else if c == '>' then stripTagsAux cs false
    else if inTag then stripTagsAux cs true
    else c :: stripTagsAux cs false

/-- The text content of an HTML fragment: the fragment with its markup
tags removed. -/
def stripTags (s : String) : String := String.mk (stripTagsAux s.data false)

theorem HeaderMap.get_set_self (h : HeaderMap) (k v : String) :
    (h.set k v).get k = some v := by
  induction h with
  | nil => simp [HeaderMap.set, HeaderMap.get]
  | cons p t ih =>
    by_cases hp : p.1 = k
    · simp [HeaderMap.set, HeaderMap.get, hp]
    · simp [HeaderMap.set, HeaderMap.get, hp, ih]

theorem authValue_ne_empty (s : Session) : authValue s ≠ "" := by
  intro h
  have h2 := congrArg String.length h
  rw [authValue, String.length_append, String.length_append] at h2
  have hone : String.length " " = 1 := rfl
  have hzero : String.length "" = 0 := rfl
  rw [hone, hzero] at h2
  omega

theorem jsTruthy_some (v : String) (hv : v ≠ "") : jsTruthy (some v) = true := by
  simp [jsTruthy, bne_iff_ne]
  exact hv

theorem capturedHeaders_truthy (s : Session)
    (hs : (jsTruthy s.access_token && jsTruthy s.token_type) = true) :
    capturedHeaders s = [("Content-Type", "application/json"), ("Authorization", authValue s)] := by
  simp [capturedHeaders, hs]
  rfl

theorem capturedHeaders_falsy (s : Session)
    (hs : (jsTruthy s.access_token && jsTruthy s.token_type) = false) :
    capturedHeaders s = [("Content-Type", "application/json")] := by
  simp [capturedHeaders, hs]

/-- C1 counterexample: with a session in storage, a logout whose network
call rejects (transport failure) leaves both storage keys in place and
does not navigate — the claim asserts clearing and navigation for every
outcome, including transport failure. -/
theorem C1_logout_counterexample :
    (run { access_token := some "tok", token_type := some "Bearer" }
        (logoutHandler .rejected)).access_token = some "tok"
    ∧ (run { access_token := some "tok", token_type := some "Bearer" }
        (logoutHandler .rejected)).token_type = some "Bearer"
    ∧ (run { access_token := some "tok", token_type := some "Bearer" }
        (logoutHandler .rejected)).cookie = none
    ∧ (run { access_token := some "tok", token_type := some "Bearer" }
        (logoutHandler .rejected)).location = none :=
  ⟨rfl, rfl, rfl, rfl⟩

/-- C1 amended: when the logout fetch promise resolves (success or any
non-2xx status — the response is never inspected), the handler removes
both storage keys, expires the access_token cookie and navigates to
/login; when the promise rejects (transport failure), it clears nothing
and does not navigate — it only logs the error. -/
theorem C1_logout_amended (s0 : ClientState) (ok : Bool) :
    ((run s0 (logoutHandler (.resolved ok))).access_token = none
      ∧ (run s0 (logoutHandler (.resolved ok))).token_type = none
      ∧ (run s0 (logoutHandler (.resolved ok))).cookie = some expiredCookie
      ∧ (run s0 (logoutHandler (.resolved ok))).location = some "/login")
    ∧ ((run s0 (logoutHandler .rejected)).access_token = s0.access_token
      ∧ (run s0 (logoutHandler .rejected)).token_type = s0.token_type
      ∧ (run s0 (logoutHandler .rejected)).cookie = s0.cookie
      ∧ (run s0 (logoutHandler .rejected)).location = s0.location) :=
  ⟨⟨rfl, rfl, rfl, rfl⟩, ⟨rfl, rfl, rfl, rfl⟩⟩

/-- C6: a registration submission with mismatched password and
confirmation issues no network call at all and shows "Passwords do not
match"; the registration request is sent exactly when the two fields are
equal. -/
theorem C6_register_password_guard (u p pc : String) (out : RegisterOutcome) :
    (p ≠ pc →
      (∀ url, Event.fetchStart url ∉ registerHandler u p pc out)
      ∧ Event.showMessage "register-error" "Passwords do not match"
          ∈ registerHandler u p pc out)
    ∧ (p = pc → Event.fetchStart "/auth/register" ∈ registerHandler u p pc out) := by
  constructor
  · intro hne
    constructor
    · intro url hmem
      simp [registerHandler, hne] at hmem
    · simp [registerHandler, hne]
  · intro heq
    simp [registerHandler, heq]

/-- C6 witness: mismatched passwords yield no fetch event and the
mismatch message; equal passwords yield the registration fetch. -/
theorem C6_register_password_guard_witness :
    ((∀ url, Event.fetchStart url
        ∉ registerHandler "alice" "pw1" "pw2" (.response true none))
      ∧ Event.showMessage "register-error" "Passwords do not match"
          ∈ registerHandler "alice" "pw1" "pw2" (.response true none))
    ∧ Event.fetchStart "/auth/register"
        ∈ registerHandler "alice" "pw1" "pw1" (.response true none) :=
  ⟨(C6_register_password_guard "alice" "pw1" "pw2" (.response true none)).1 (by decide),
   (C6_register_password_guard "alice" "pw1" "pw1" (.response true none)).2 rfl⟩

/-- C7: a login response with response.ok and a body carrying the two
token fields stores them under the `access_token` and `token_type`
storage keys, writes the session cookie with max-age 604800 when
remember_me is set and 86400 otherwise, and navigates to /dashboard; in
particular the body access_token "abc", token_type "Bearer" leaves
storage holding exactly those values. -/
theorem C7_login_success (u p : String) (rm : Bool) (body : LoginBody) :
    (run {} (loginHandler u p rm (.response true body))).access_token = some body.access_token
    ∧ (run {} (loginHandler u p rm (.response true body))).token_type = some body.token_type
    ∧ (run {} (loginHandler u p rm (.response true body))).cookie
        = some (loginCookie body.access_token rm)
    ∧ (run {} (loginHandler u p rm (.response true body))).location = some "/dashboard"
    ∧ loginCookie body.access_token true
        = "access_token=Bearer " ++ body.access_token ++ "; path=/; max-age=" ++ "604800" ++ "; SameSite=Lax"
    ∧ loginCookie body.access_token false
        = "access_token=Bearer " ++ body.access_token ++ "; path=/; max-age=" ++ "86400" ++ "; SameSite=Lax"
    ∧ (run {} (loginHandler "alice" "pw1" false (.response true ⟨"abc", "Bearer", none⟩))).access_token
        = some "abc"
    ∧ (run {} (loginHandler "alice" "pw1" false (.response true ⟨"abc", "Bearer", none⟩))).token_type
        = some "Bearer" :=
  ⟨rfl, rfl, rfl, rfl, rfl, rfl, rfl, rfl⟩

set_option maxRecDepth 40000 in
/-- C8: a deposit of 250 dollars (25000 cents) answered with 200 and
cheque_number CHQ-1001 renders the result panel whose text content
contains "Cheque Number: CHQ-1001", whose HTML contains the formatted
amount and a link to the cheque PDF endpoint. -/
theorem C8_deposit_success_panel :
    (run {} (depositHandler 25000 (.response true { cheque_number := "CHQ-1001" }))).rendered
      = some ("deposit-result", depositResultHTML "CHQ-1001" 25000)
    ∧ strContains (stripTags (depositResultHTML "CHQ-1001" 25000)) "Cheque Number: CHQ-1001" = true
    ∧ strContains (depositResultHTML "CHQ-1001" 25000) "$250.00" = true
    ∧ strContains (depositResultHTML "CHQ-1001" 25000) "/api/deposit/CHQ-1001/pdf" = true :=
  ⟨rfl, by decide, by decide, by decide⟩

/-- C9: the cookie written on login success is the literal "Bearer "
prefix followed by the access token — independent of the token_type the
server returned, which is stored in the token_type storage entry. -/
theorem C9_cookie_hardcoded_bearer (u p : String) (rm : Bool) (body : LoginBody) :
    (run {} (loginHandler u p rm (.response true body))).cookie
      = some ("access_token=Bearer " ++ body.access_token ++ "; path=/; max-age="
          ++ (if rm then "604800" else "86400") ++ "; SameSite=Lax")
    ∧ (∀ tt, (run {} (loginHandler u p rm (.response true { body with token_type := tt }))).cookie
        = (run {} (loginHandler u p rm (.response true body))).cookie)
    ∧ (run {} (loginHandler u p rm (.response true body))).token_type = some body.token_type := by
  refine ⟨?_, fun tt => rfl, rfl⟩
  cases rm with
  | true => rfl
  | false => rfl

/-- C2 counterexample: with a session in storage and a caller-supplied
Authorization header on an /api/ path, the wrapped fetch preserves the
caller's header while the htmx hook overwrites it — the two surfaces do
not implement the same function and the htmx hook does overwrite. -/
theorem C2_interceptors_counterexample :
    fetchWrapperHeaders ⟨some "tok", some "Bearer"⟩ "/api/x" [("Authorization", "Custom abc")]
      ≠ htmxConfigHeaders ⟨some "tok", some "Bearer"⟩ "/api/x" [("Authorization", "Custom abc")]
    ∧ (htmxConfigHeaders ⟨some "tok", some "Bearer"⟩ "/api/x"
        [("Authorization", "Custom abc")]).get "Authorization" = some "Bearer tok"
    ∧ (fetchWrapperHeaders ⟨some "tok", some "Bearer"⟩ "/api/x"
        [("Authorization", "Custom abc")]).get "Authorization" = some "Custom abc" :=
  ⟨by decide, by decide, by decide⟩

/-- C2 amended: the two surfaces apply the identical /api/ prefix check
and the identical header construction, and agree whenever the caller
supplied no truthy Authorization entry; only the wrapped fetch preserves
a caller-supplied truthy Authorization header, while the htmx hook
overwrites it whenever a session is present on an /api/ path. -/
theorem C2_interceptors_amended (store : Session) (path : String) (h : HeaderMap) :
    (jsTruthy (h.get "Authorization") = false →
      fetchWrapperHeaders store path h = htmxConfigHeaders store path h)
    ∧ (jsTruthy (h.get "Authorization") = true →
      fetchWrapperHeaders store path h = h)
    ∧ (strStartsWith path "/api/" = true →
      (jsTruthy store.access_token && jsTruthy store.token_type) = true →
      (htmxConfigHeaders store path h).get "Authorization" = some (authValue store)) := by
  refine ⟨?_, ?_, ?_⟩
  · intro hf
    simp [fetchWrapperHeaders, htmxConfigHeaders, hf]
  · intro ht
    simp [fetchWrapperHeaders, ht]
  · intro hp hs
    rw [Bool.and_eq_true] at hs
    simp [htmxConfigHeaders, hp, hs.1, hs.2, HeaderMap.get_set_self]

/-- C2 amended witness: concrete instances of the three parts. -/
theorem C2_interceptors_amended_witness :
    fetchWrapperHeaders ⟨some "tok", some "Bearer"⟩ "/api/x" []
      = htmxConfigHeaders ⟨some "tok", some "Bearer"⟩ "/api/x" []
    ∧ fetchWrapperHeaders ⟨some "tok", some "Bearer"⟩ "/api/x"
        [("Authorization", "Custom abc")] = [("Authorization", "Custom abc")]
    ∧ (htmxConfigHeaders ⟨some "tok", some "Bearer"⟩ "/api/x"
        [("Authorization", "Custom abc")]).get "Authorization"
      = some (authValue ⟨some "tok", some "Bearer"⟩) :=
  ⟨(C2_interceptors_amended ⟨some "tok", some "Bearer"⟩ "/api/x" []).1 (by decide),
   (C2_interceptors_amended ⟨some "tok", some "Bearer"⟩ "/api/x"
      [("Authorization", "Custom abc")]).2.1 (by decide),
   (C2_interceptors_amended ⟨some "tok", some "Bearer"⟩ "/api/x"
      [("Authorization", "Custom abc")]).2.2 (by decide) (by decide)⟩

/-- C3 counterexample: the transfer / deposit / admin fetches send the
header map captured at page load; if the session at load time was "old"
and the session current when the request is issued is "new", the outgoing
Authorization header is the stale "Bearer old", not the current-storage
value "Bearer new" the claim requires. -/
theorem C3_outgoing_auth_counterexample :
    (transferRequestHeaders ⟨some "old", some "Bearer"⟩ ⟨some "new", some "Bearer"⟩).get
        "Authorization" = some "Bearer old"
    ∧ authValue ⟨some "new", some "Bearer"⟩ = "Bearer new"
    ∧ ("Bearer old" : String) ≠ "Bearer new" :=
  ⟨by decide, by decide, by decide⟩

/-- C3 amended: an /api/ request issued with the load-time captured
header map carries the Authorization value built from the load-time
session whenever one was present at load (the wrapped fetch does not
overwrite it), and the current-session value only when no session was
present at load; an /api/ fetch whose caller headers have no truthy
Authorization entry carries the current-session value; requests to
paths outside the /api/ prefix gain no Authorization header from either
surface. -/
theorem C3_outgoing_auth_amended (loadStore currentStore : Session) (url : String) (h : HeaderMap) :
    ((jsTruthy loadStore.access_token && jsTruthy loadStore.token_type) = true →
      (transferRequestHeaders loadStore currentStore).get "Authorization"
        = some (authValue loadStore))
    ∧ ((jsTruthy loadStore.access_token && jsTruthy loadStore.token_type) = false →
      (jsTruthy currentStore.access_token && jsTruthy currentStore.token_type) = true →
      (transferRequestHeaders loadStore currentStore).get "Authorization"
        = some (authValue currentStore))
    ∧ (strStartsWith url "/api/" = true →
      jsTruthy (h.get "Authorization") = false →
      (jsTruthy currentStore.access_token && jsTruthy currentStore.token_type) = true →
      (fetchWrapperHeaders currentStore url h).get "Authorization"
        = some (authValue currentStore))
    ∧ (strStartsWith url "/api/" = false →
      fetchWrapperHeaders currentStore url h = h
      ∧ htmxConfigHeaders currentStore url h = h) := by
  have hstart : strStartsWith "/api/transfer" "/api/" = true := rfl
  refine ⟨?_, ?_, ?_, ?_⟩
  · intro hl
    rw [transferRequestHeaders, capturedHeaders_truthy loadStore hl]
    have hget : HeaderMap.get
        [("Content-Type", "application/json"), ("Authorization", authValue loadStore)]
        "Authorization" = some (authValue loadStore) := rfl
    by_cases hc : (jsTruthy currentStore.access_token && jsTruthy currentStore.token_type) = true
    · simp [fetchWrapperHeaders, hstart, hc, hget,
        jsTruthy_some _ (authValue_ne_empty loadStore)]
    · simp [fetchWrapperHeaders, hstart, hc, hget]
  · intro hl hc
    rw [Bool.and_eq_true] at hc
    rw [transferRequestHeaders, capturedHeaders_falsy loadStore hl]
    have hget : HeaderMap.get [("Content-Type", "application/json")] "Authorization" = none := rfl
    have hset : HeaderMap.set [("Content-Type", "application/json")]
        "Authorization" (authValue currentStore)
        = [("Content-Type", "application/json"), ("Authorization", authValue currentStore)] := rfl
    have hget1 : HeaderMap.get
        [("Content-Type", "application/json"), ("Authorization", authValue currentStore)]
        "Authorization" = some (authValue currentStore) := rfl
    have hnone : jsTruthy none = false := rfl
    simp [fetchWrapperHeaders, hstart, hc.1, hc.2, hget, hset, hget1, hnone]
  · intro hp hf hc
    rw [Bool.and_eq_true] at hc
    simp [fetchWrapperHeaders, hp, hf, hc.1, hc.2, HeaderMap.get_set_self]
  · intro hp
    constructor <;> simp [fetchWrapperHeaders, htmxConfigHeaders, hp]

/-- C3 amended witness: concrete instances of the four parts. -/
theorem C3_outgoing_auth_amended_witness :
    (transferRequestHeaders ⟨some "old", some "Bearer"⟩ ⟨some "new", some "Bearer"⟩).get
        "Authorization" = some (authValue ⟨some "old", some "Bearer"⟩)
    ∧ (transferRequestHeaders ⟨none, none⟩ ⟨some "new", some "Bearer"⟩).get
        "Authorization" = some (authValue ⟨some "new", some "Bearer"⟩)
    ∧ (fetchWrapperHeaders ⟨some "new", some "Bearer"⟩ "/api/deposit" []).get
        "Authorization" = some (authValue ⟨some "new", some "Bearer"⟩)
    ∧ (fetchWrapperHeaders ⟨some "new", some "Bearer"⟩ "/auth/login" [] = []
      ∧ htmxConfigHeaders ⟨some "new", some "Bearer"⟩ "/auth/login" [] = []) :=
  ⟨(C3_outgoing_auth_amended ⟨some "old", some "Bearer"⟩ ⟨some "new", some "Bearer"⟩
      "/api/deposit" []).1 (by decide),
   (C3_outgoing_auth_amended ⟨none, none⟩ ⟨some "new", some "Bearer"⟩
      "/api/deposit" []).2.1 (by decide) (by decide),
   (C3_outgoing_auth_amended ⟨none, none⟩ ⟨some "new", some "Bearer"⟩
      "/api/deposit" []).2.2.1 (by decide) (by decide) (by decide),
   (C3_outgoing_auth_amended ⟨none, none⟩ ⟨some "new", some "Bearer"⟩
      "/auth/login" []).2.2.2 (by decide)⟩

/-- C4: the deposit submit handler disables the control and sets the
processing label synchronously before the network request starts (they
are the first two events, the fetch the third); after a failure response
(non-2xx) or a transport error the control is re-enabled with its
original label; and after every terminal outcome the control is either
re-enabled or a page reload is scheduled, so it never remains permanently
disabled. -/
theorem C4_deposit_button_lifecycle (amountCents : Nat) :
    (∀ out, (depositHandler amountCents out).take 3 =
      [Event.setDisabled true, Event.setLabel "Processing...", Event.fetchStart "/api/deposit"])
    ∧ (∀ body,
        (run initialDepositState (depositHandler amountCents (.response false body))).btnDisabled
          = false
        ∧ (run initialDepositState (depositHandler amountCents (.response false body))).btnLabel
            = initialDepositState.btnLabel)
    ∧ ((run initialDepositState (depositHandler amountCents .transportError)).btnDisabled = false
        ∧ (run initialDepositState (depositHandler amountCents .transportError)).btnLabel
            = initialDepositState.btnLabel)
    ∧ (∀ out, (run initialDepositState (depositHandler amountCents out)).btnDisabled = false
        ∨ (run initialDepositState (depositHandler amountCents out)).reloadScheduled = some 3000) := by
  refine ⟨?_, fun body => ⟨rfl, rfl⟩, ⟨rfl, rfl⟩, ?_⟩
  · intro out
    cases out with
    | response ok body =>
      cases ok with
      | false => rfl
      | true => rfl
    | transportError => rfl
  · intro out
    cases out with
    | response ok body =>
      cases ok with
      | false => exact Or.inl rfl
      | true => exact Or.inr rfl
    | transportError => exact Or.inl rfl

/-- C5 counterexample: an enabled admin deposit button whose textContent
carries surrounding whitespace, answered with a failure response bearing
a server detail: the restored label is the trimmed text, not the original
label text, and the notification shown is the server detail, which names
neither the resource kind nor the action. -/
theorem C5_admin_buttons_counterexample :
    (run { btnLabel := " Approve " }
       (depositActionHandler ⟨false, " Approve "⟩ "7" "approved"
         (.response false (some "Insufficient funds")))).btnLabel = "Approve"
    ∧ ("Approve" : String) ≠ " Approve "
    ∧ (run { btnLabel := " Approve " }
        (depositActionHandler ⟨false, " Approve "⟩ "7" "approved"
          (.response false (some "Insufficient funds")))).notices
        = [("Insufficient funds", "error")]
    ∧ strContains "Insufficient funds" "deposit" = false
    ∧ strContains "Insufficient funds" "approved" = false :=
  ⟨by decide, by decide, by decide, by decide, by decide⟩

/-- C5 amended: for both admin button kinds, a click while the control is
disabled produces no events at all, hence zero network requests; on a
failure response or transport error the control is re-enabled and its
label is restored to the trimmed original text, and a notification is
shown — the server detail when one is truthy, otherwise a generic
fallback naming the resource kind and the action. -/
theorem C5_admin_buttons_amended (s0 : ClientState) (rid action : String) (d : Option String) :
    (s0.btnDisabled = true → ∀ out,
      depositActionHandler s0.button rid action out = []
      ∧ withdrawalActionHandler s0.button rid action out = [])
    ∧ (s0.btnDisabled = false →
      ((run s0 (depositActionHandler s0.button rid action (.response false d))).btnDisabled = false
        ∧ (run s0 (depositActionHandler s0.button rid action (.response false d))).btnLabel
            = jsTrim s0.btnLabel
        ∧ (run s0 (depositActionHandler s0.button rid action (.response false d))).notices
            = s0.notices ++ [(jsOr d ("Failed to " ++ action ++ " deposit"), "error")])
      ∧ ((run s0 (depositActionHandler s0.button rid action .transportError)).btnDisabled = false
        ∧ (run s0 (depositActionHandler s0.button rid action .transportError)).btnLabel
            = jsTrim s0.btnLabel
        ∧ (run s0 (depositActionHandler s0.button rid action .transportError)).notices
            = s0.notices ++ [("An error occurred while " ++ action ++ "ing deposit", "error")])
      ∧ ((run s0 (withdrawalActionHandler s0.button rid action (.response false d))).btnDisabled = false
        ∧ (run s0 (withdrawalActionHandler s0.button rid action (.response false d))).btnLabel
            = jsTrim s0.btnLabel
        ∧ (run s0 (withdrawalActionHandler s0.button rid action (.response false d))).notices
            = s0.notices ++ [(jsOr d ("Failed to " ++ action ++ " withdrawal"), "error")])
      ∧ ((run s0 (withdrawalActionHandler s0.button rid action .transportError)).btnDisabled = false
        ∧ (run s0 (withdrawalActionHandler s0.button rid action .transportError)).btnLabel
            = jsTrim s0.btnLabel
        ∧ (run s0 (withdrawalActionHandler s0.button rid action .transportError)).notices
            = s0.notices ++ [("An error occurred while " ++ action ++ "ing withdrawal", "error")])) := by
  constructor
  · intro hd out
    constructor
    · simp [depositActionHandler, ClientState.button, hd]
    · simp [withdrawalActionHandler, ClientState.button, hd]
  · intro hd
    refine ⟨⟨?_, ?_, ?_⟩, ⟨?_, ?_, ?_⟩, ⟨?_, ?_, ?_⟩, ⟨?_, ?_, ?_⟩⟩ <;>
      simp [depositActionHandler, withdrawalActionHandler, ClientState.button, hd,
        run, step]

/-- C5 amended witness: a disabled button yields no events, and a failure
on an enabled button re-enables it. -/
theorem C5_admin_buttons_amended_witness :
    (depositActionHandler (ClientState.button { btnDisabled := true }) "7" "approved"
        .transportError = []
      ∧ withdrawalActionHandler (ClientState.button { btnDisabled := true }) "7" "approved"
        .transportError = [])
    ∧ (run {} (depositActionHandler (ClientState.button {}) "7" "approved"
        (.response false (some "no")))).btnDisabled = false :=
  ⟨(C5_admin_buttons_amended { btnDisabled := true } "7" "approved" (some "no")).1 rfl
      .transportError,
   ((C5_admin_buttons_amended {} "7" "approved" (some "no")).2 rfl).1.1⟩

/-- C10: both injection paths touch the header map only when both storage
keys are present: whenever either key is absent both paths leave the
request headers untouched, and whenever either path changed the headers,
both keys were present. -/
theorem C10_auth_requires_both (store : Session) (path : String) (h : HeaderMap) :
    (store.access_token = none ∨ store.token_type = none →
      fetchWrapperHeaders store path h = h ∧ htmxConfigHeaders store path h = h)
    ∧ (fetchWrapperHeaders store path h ≠ h →
      store.access_token ≠ none ∧ store.token_type ≠ none)
    ∧ (htmxConfigHeaders store path h ≠ h →
      store.access_token ≠ none ∧ store.token_type ≠ none) := by
  have habsent : store.access_token = none ∨ store.token_type = none →
      (jsTruthy store.access_token && jsTruthy store.token_type) = false := by
    intro hc
    cases hc with
    | inl h1 => simp [jsTruthy, h1]
    | inr h1 => simp [jsTruthy, h1]
  have hids : (jsTruthy store.access_token && jsTruthy store.token_type) = false →
      fetchWrapperHeaders store path h = h ∧ htmxConfigHeaders store path h = h := by
    intro hf
    constructor <;> simp [fetchWrapperHeaders, htmxConfigHeaders, hf]
  refine ⟨fun hc => hids (habsent hc), ?_, ?_⟩
  · intro hchg
    exact ⟨fun h1 => hchg (hids (habsent (Or.inl h1))).1,
           fun h1 => hchg (hids (habsent (Or.inr h1))).1⟩
  · intro hchg
    exact ⟨fun h1 => hchg (hids (habsent (Or.inl h1))).2,
           fun h1 => hchg (hids (habsent (Or.inr h1))).2⟩

/-- C10 witness: with only access_token present neither path adds a
header; with both present the wrapper does change an empty header map,
and both keys are indeed present. -/
theorem C10_auth_requires_both_witness :
    (fetchWrapperHeaders ⟨some "tok", none⟩ "/api/x" [] = []
      ∧ htmxConfigHeaders ⟨some "tok", none⟩ "/api/x" [] = [])
    ∧ ((⟨some "tok", some "Bearer"⟩ : Session).access_token ≠ none
      ∧ (⟨some "tok", some "Bearer"⟩ : Session).token_type ≠ none)
    ∧ ((⟨some "tok", some "Bearer"⟩ : Session).access_token ≠ none
      ∧ (⟨some "tok", some "Bearer"⟩ : Session).token_type ≠ none) :=
  ⟨(C10_auth_requires_both ⟨some "tok", none⟩ "/api/x" []).1 (Or.inr rfl),
   (C10_auth_requires_both ⟨some "tok", some "Bearer"⟩ "/api/x" []).2.1 (by decide),
   (C10_auth_requires_both ⟨some "tok", some "Bearer"⟩ "/api/x" []).2.2 (by decide)⟩

end Bank
